import Mathlib

/-!
Verification development for a small PIC-layout repository consisting of two
independent Python files:

* `src/components/code/examples/pic_component_showcase.py` — a grid layout
  packer: a closure `add_component_to_grid` mutating `row`/`col` counters,
  placing each component at `(x_start + col * x_spacing, y_start - row * y_spacing)`
  with a caption at `(x - 50, y - 40)`, then advancing the cursor and wrapping
  after `max_cols` columns; plus an inline forced row break before the spiral.

* `tests/gds/read_gds.py` — `inspect_gds`: walks a loaded GDS library and
  prints a structural report line by line, with a `try`/`finally` that closes
  the log file (and never closes stdout).

Coordinates in the showcase are Python integers (spacing 300/100, origin 0,
offsets 50/40), embedded as `Int`.  The dump walker's numeric attributes are
rendered via `toString`; their exact textual rendering is abstracted, the
claims under study concern which lines appear and in which order.
-/

/-- The mutable layout state of the grid packer: the `row`/`col` counters
mutated by `add_component_to_grid` via `nonlocal`. -/
structure GridCursor where
  row : Nat
  col : Nat
deriving Repr, DecidableEq

/-- The constants of one layout run: `max_cols`, `x_spacing`, `y_spacing`,
`x_start`, `y_start` from `pic_component_showcase`. -/
structure GridConfig where
  maxCols : Nat
  xSpacing : Int
  ySpacing : Int
  originX : Int
  originY : Int
deriving Repr, DecidableEq

/-- The concrete configuration of `pic_component_showcase`:
`max_cols = 4`, `x_spacing = 300`, `y_spacing = 100`, `x_start = y_start = 0`. -/
def showcaseConfig : GridConfig :=
  { maxCols := 4, xSpacing := 300, ySpacing := 100, originX := 0, originY := 0 }

/-- The positions produced by one placement: where the component reference is
moved and where its caption text is moved. -/
structure Placement where
  itemX : Int
  itemY : Int
  captionX : Int
  captionY : Int
deriving Repr, DecidableEq

/-- Embedding of `add_component_to_grid`: computes
`x_pos = x_start + col * x_spacing`, `y_pos = y_start - row * y_spacing`,
moves the component there and the caption to `(x_pos - 50, y_pos - 40)`,
then does `col += 1; if col >= max_cols: col = 0; row += 1`.
Returns the placement together with the updated cursor. -/
def add_component_to_grid (cfg : GridConfig) (cur : GridCursor) :
    Placement × GridCursor :=
  let xPos : Int := cfg.originX + (cur.col : Int) * cfg.xSpacing
  let yPos : Int := cfg.originY - (cur.row : Int) * cfg.ySpacing
  let p : Placement :=
    { itemX := xPos, itemY := yPos, captionX := xPos - 50, captionY := yPos - 40 }
  let c := cur.col + 1
  if c ≥ cfg.maxCols then
    (p, { row := cur.row + 1, col := 0 })
  else
    (p, { row := cur.row, col := c })

/-- Embedding of the inline forced row break before the spiral:
`if col != 0: col = 0; row += 1`. -/
def forceNewRow (cur : GridCursor) : GridCursor :=
  if cur.col ≠ 0 then { row := cur.row + 1, col := 0 } else cur

/-- Embedding of the spiral placement: force a new row, then move the spiral
to the cursor position and its caption to `(x_pos - 50, y_pos - 40)`, without
advancing the cursor afterwards. -/
def placeSpiral (cfg : GridConfig) (cur : GridCursor) : Placement :=
  let cur2 := forceNewRow cur
  let xPos : Int := cfg.originX + (cur2.col : Int) * cfg.xSpacing
  let yPos : Int := cfg.originY - (cur2.row : Int) * cfg.ySpacing
  { itemX := xPos, itemY := yPos, captionX := xPos - 50, captionY := yPos - 40 }

/-- Cursor state after `k` consecutive placements onto a fresh cursor,
with no forced row breaks in between.  `cursorAfter cfg k` is the cell at
which the `k`-th (0-indexed) item is placed. -/
def cursorAfter (cfg : GridConfig) : Nat → GridCursor
  | 0 => { row := 0, col := 0 }
  | k + 1 => (add_component_to_grid cfg (cursorAfter cfg k)).2

/-- The placement produced for the `k`-th (0-indexed) item in a run of
consecutive placements onto a fresh cursor. -/
def placementAt (cfg : GridConfig) (k : Nat) : Placement :=
  (add_component_to_grid cfg (cursorAfter cfg k)).1

/-- The two operations performed on the cursor during one layout run. -/
inductive GridOp where
  | place
  | newRow
deriving Repr, DecidableEq

/-- One cursor operation: a placement or a forced row break. -/
def applyOp (cfg : GridConfig) (cur : GridCursor) : GridOp → GridCursor
  | GridOp.place => (add_component_to_grid cfg cur).2
  | GridOp.newRow => forceNewRow cur

/-- A sequence of cursor operations within one layout run. -/
def runOps (cfg : GridConfig) (cur : GridCursor) (ops : List GridOp) : GridCursor :=
  ops.foldl (applyOp cfg) cur

-- Arithmetic helpers for the closed form of `cursorAfter`.

theorem succ_div_mod_of_wrap (m k : Nat) (hm : 0 < m) (h : k % m + 1 = m) :
    (k + 1) / m = k / m + 1 ∧ (k + 1) % m = 0 := by
  have hd := Nat.div_add_mod k m
  have h1 : k + 1 = m * (k / m + 1) := by
    rw [Nat.mul_add, Nat.mul_one]; omega
  constructor
  · rw [h1, Nat.mul_div_cancel_left _ hm]
  · rw [h1, Nat.mul_mod_right]

theorem succ_div_mod_of_no_wrap (m k : Nat) (hm : 0 < m) (h : k % m + 1 < m) :
    (k + 1) / m = k / m ∧ (k + 1) % m = k % m + 1 := by
  have hd := Nat.div_add_mod k m
  have h1 : k + 1 = m * (k / m) + (k % m + 1) := by omega
  constructor
  · rw [h1, Nat.mul_add_div hm, Nat.div_eq_of_lt h, Nat.add_zero]
  · rw [h1, Nat.mul_add_mod, Nat.mod_eq_of_lt h]

theorem cursorAfter_closed_form (cfg : GridConfig) (hm : 0 < cfg.maxCols) (k : Nat) :
    cursorAfter cfg k = { row := k / cfg.maxCols, col := k % cfg.maxCols } := by
  induction k with
  | zero => simp [cursorAfter]
  | succ k ih =>
    have hlt : k % cfg.maxCols < cfg.maxCols := Nat.mod_lt _ hm
    rw [cursorAfter, ih]
    unfold add_component_to_grid
    by_cases hc : k % cfg.maxCols + 1 ≥ cfg.maxCols
    · have hw : k % cfg.maxCols + 1 = cfg.maxCols := by omega
      obtain ⟨hd, hmo⟩ := succ_div_mod_of_wrap cfg.maxCols k hm hw
      simp only [hc, if_true, hd, hmo]
    · push_neg at hc
      obtain ⟨hd, hmo⟩ := succ_div_mod_of_no_wrap cfg.maxCols k hm hc
      simp only [if_neg (by omega : ¬ k % cfg.maxCols + 1 ≥ cfg.maxCols), hd, hmo]

/-!
Data model of a loaded GDS library, as accessed by `inspect_gds` in
`tests/gds/read_gds.py`.  Attribute probing via `hasattr` is embedded as
`Option` fields; the `ref.cell.name if ref.cell else 'Unknown'` null test is
the inner `Option` of `cellAttr`.
-/

/-- A polygon: layer, datatype and its point list. -/
structure Polygon where
  layer : Nat
  datatype : Nat
  points : List (Int × Int)
deriving Repr, DecidableEq

/-- The two path layer representations distinguished by
`hasattr(path, 'layers')`: the multi-layer variant carries per-segment
layer and datatype lists, the single-layer variant one layer/datatype pair. -/
inductive PathLayers where
  | multi (layers : List Nat) (datatypes : List Nat)
  | single (layer : Nat) (datatype : Nat)
deriving Repr, DecidableEq

/-- The geometry attribute probed by `hasattr(path, 'spine')` /
`hasattr(path, 'points')`: a spine, a point list, or neither. -/
inductive PathGeom where
  | spineGeom (pts : List (Int × Int))
  | pointsGeom (pts : List (Int × Int))
  | noGeom
deriving Repr, DecidableEq

/-- A path object as read by the walker. -/
structure GdsPath where
  layersInfo : PathLayers
  geom : PathGeom
deriving Repr, DecidableEq

/-- A text label: layer, texttype, text and origin. -/
structure GdsLabel where
  layer : Nat
  texttype : Nat
  text : String
  origin : Int × Int
deriving Repr, DecidableEq

/-- The array attributes probed by `hasattr(ref, 'columns')`. -/
structure RefArray where
  columns : Nat
  rows : Nat
  spacing : Int × Int
deriving Repr, DecidableEq

/-- A reference (instance) as read by the walker.  `cellAttr = none` models a
reference object without a `cell` attribute; `cellAttr = some none` models a
present but null `cell`; `arrayAttrs = none` models absent array fields. -/
structure Reference where
  cellAttr : Option (Option String)
  origin : Int × Int
  rotation : Int
  magnification : Int
  xReflection : Bool
  arrayAttrs : Option RefArray
deriving Repr, DecidableEq

/-- A cell: named, with ordered polygons, paths, labels and references. -/
structure Cell where
  name : String
  polygons : List Polygon
  paths : List GdsPath
  labels : List GdsLabel
  references : List Reference
deriving Repr, DecidableEq

/-- A loaded GDS library. -/
structure Library where
  name : String
  cells : List Cell
deriving Repr, DecidableEq

/-!
Line emission, mirroring the sequential `print(..., file=output)` calls of
`inspect_gds`.  Each emitter threads the list of lines written so far.
-/

/-- The two lines printed for one polygon. -/
def emitPolygon (acc : List String) (p : Polygon) : List String :=
  let acc := acc ++ ["    Polygon - Layer " ++ toString p.layer ++ ", datatype " ++ toString p.datatype]
  acc ++ ["      Points: " ++ toString p.points]

/-- The lines printed for one path: the layer line chosen by
`hasattr(path, 'layers')`, then the geometry line chosen by
`hasattr(path, 'spine')` / `hasattr(path, 'points')`. -/
def emitPath (acc : List String) (p : GdsPath) : List String :=
  let acc :=
    match p.layersInfo with
    | PathLayers.multi ls ds =>
        acc ++ ["    Path - Layers " ++ toString ls ++ ", datatypes " ++ toString ds]
    | PathLayers.single l d =>
        acc ++ ["    Path - Layer " ++ toString l ++ ", datatype " ++ toString d]
  match p.geom with
  | PathGeom.spineGeom pts => acc ++ ["      Spine points: " ++ toString pts]
  | PathGeom.pointsGeom pts => acc ++ ["      Points: " ++ toString pts]
  | PathGeom.noGeom => acc

/-- The two lines printed for one label. -/
def emitLabel (acc : List String) (l : GdsLabel) : List String :=
  let acc := acc ++ ["    Label - Layer " ++ toString l.layer ++ ", texttype " ++ toString l.texttype]
  acc ++ ["      Text: " ++ l.text ++ ", Origin: " ++ toString l.origin]

/-- The lines printed for one reference: the target-cell line when the `cell`
attribute exists (printing `Unknown` when it is null), the four attribute
lines, and the two array lines when `columns > 1`. -/
def emitReference (acc : List String) (r : Reference) : List String :=
  let acc :=
    match r.cellAttr with
    | some c =>
        let nm := match c with | some n => n | none => "Unknown"
        acc ++ ["    Reference to cell: " ++ nm]
    | none => acc
  let acc := acc ++ ["      Origin: " ++ toString r.origin]
  let acc := acc ++ ["      Rotation: " ++ toString r.rotation ++ " degrees"]
  let acc := acc ++ ["      Magnification: " ++ toString r.magnification]
  let acc := acc ++ ["      X-reflection: " ++ toString r.xReflection]
  match r.arrayAttrs with
  | some a =>
      if 1 < a.columns then
        acc ++ ["      Array: " ++ toString a.columns ++ " columns x " ++ toString a.rows ++ " rows",
                "      Spacing: " ++ toString a.spacing]
      else acc
  | none => acc

/-- The lines printed for one cell: the four count lines, then every polygon,
path, label and reference in order, then a blank line. -/
def emitCell (acc : List String) (cell : Cell) : List String :=
  let acc := acc ++ ["Cell: " ++ cell.name]
  let acc := acc ++ ["  Polygons: " ++ toString cell.polygons.length]
  let acc := acc ++ ["  Paths: " ++ toString cell.paths.length]
  let acc := acc ++ ["  Labels: " ++ toString cell.labels.length]
  let acc := acc ++ ["  References: " ++ toString cell.references.length]
  let acc := cell.polygons.foldl emitPolygon acc
  let acc := cell.paths.foldl emitPath acc
  let acc := cell.labels.foldl emitLabel acc
  let acc := cell.references.foldl emitReference acc
  acc ++ [""]

/-- The full report of `inspect_gds` over a loaded library: the header
(library name, cell count, cell name list, blank line), then every cell. -/
def inspect_gds (lib : Library) : List String :=
  let acc : List String := []
  let acc := acc ++ ["Library: " ++ lib.name]
  let acc := acc ++ ["Number of cells: " ++ toString lib.cells.length]
  let acc := acc ++ ["Cells: " ++ toString (lib.cells.map Cell.name)]
  let acc := acc ++ [""]
  lib.cells.foldl emitCell acc

/-- The lines printed for one reference, from an empty sink. -/
def referenceLines (r : Reference) : List String := emitReference [] r

/-- The lines printed for one cell, from an empty sink. -/
def cellLines (cell : Cell) : List String := emitCell [] cell

/-!
Spec-side description of the report, following the documented fixed order:
header (library name, cell count, cell name list), then for each cell in its
native order the counts followed by per-polygon, per-path, per-label and
per-reference lines.  Used to state the refinement claim about the emitted
report.
-/

/-- Spec-order lines for one polygon. -/
def polygonLinesSpec (p : Polygon) : List String :=
  ["    Polygon - Layer " ++ toString p.layer ++ ", datatype " ++ toString p.datatype,
   "      Points: " ++ toString p.points]

/-- Spec-order lines for one path. -/
def pathLinesSpec (p : GdsPath) : List String :=
  (match p.layersInfo with
   | PathLayers.multi ls ds =>
       ["    Path - Layers " ++ toString ls ++ ", datatypes " ++ toString ds]
   | PathLayers.single l d =>
       ["    Path - Layer " ++ toString l ++ ", datatype " ++ toString d]) ++
  (match p.geom with
   | PathGeom.spineGeom pts => ["      Spine points: " ++ toString pts]
   | PathGeom.pointsGeom pts => ["      Points: " ++ toString pts]
   | PathGeom.noGeom => [])

/-- Spec-order lines for one label. -/
def labelLinesSpec (l : GdsLabel) : List String :=
  ["    Label - Layer " ++ toString l.layer ++ ", texttype " ++ toString l.texttype,
   "      Text: " ++ l.text ++ ", Origin: " ++ toString l.origin]

/-- The array lines of one reference: present exactly when the array fields
exist and `columns > 1`. -/
def arrayLinesOf (r : Reference) : List String :=
  match r.arrayAttrs with
  | some a =>
      if 1 < a.columns then
        ["      Array: " ++ toString a.columns ++ " columns x " ++ toString a.rows ++ " rows",
         "      Spacing: " ++ toString a.spacing]
      else []
  | none => []

/-- Spec-order lines for one reference: optional target line, the four
attribute lines, then the optional array lines. -/
def referenceLinesSpec (r : Reference) : List String :=
  (match r.cellAttr with
   | some (some n) => ["    Reference to cell: " ++ n]
   | some none => ["    Reference to cell: Unknown"]
   | none => []) ++
  ["      Origin: " ++ toString r.origin,
   "      Rotation: " ++ toString r.rotation ++ " degrees",
   "      Magnification: " ++ toString r.magnification,
   "      X-reflection: " ++ toString r.xReflection] ++
  arrayLinesOf r

/-- Spec-order block for one cell. -/
def cellBlockSpec (cell : Cell) : List String :=
  ["Cell: " ++ cell.name,
   "  Polygons: " ++ toString cell.polygons.length,
   "  Paths: " ++ toString cell.paths.length,
   "  Labels: " ++ toString cell.labels.length,
   "  References: " ++ toString cell.references.length] ++
  (cell.polygons.map polygonLinesSpec).flatten ++
  (cell.paths.map pathLinesSpec).flatten ++
  (cell.labels.map labelLinesSpec).flatten ++
  (cell.references.map referenceLinesSpec).flatten ++ [""]

/-- Spec-order report for a whole library. -/
def inspectReportSpec (lib : Library) : List String :=
  ["Library: " ++ lib.name,
   "Number of cells: " ++ toString lib.cells.length,
   "Cells: " ++ toString (lib.cells.map Cell.name),
   ""] ++ (lib.cells.map cellBlockSpec).flatten

/-!
Resource model of one `inspect_gds` invocation, mirroring the control flow of
`tests/gds/read_gds.py`: when a log path is supplied the file is opened for
writing (creating or truncating it) before anything else; `gdstk.read_gds`
runs inside the `try` block, then the report writes; the `finally` block
closes the output exactly when a log file was supplied (stdout is never
closed).  A load or write failure skips the remaining body but not the
`finally` block, and the exception propagates uncaught.
-/

/-- The observable resource events of one invocation. -/
inductive DumpEvent where
  | openLogFile
  | loadDrawing (ok : Bool)
  | writeReport (ok : Bool)
  | closeLogFile
deriving Repr, DecidableEq

/-- The event trace of one `inspect_gds` invocation: open the log file first
(when a log path is supplied), attempt the load, write the report only when
the load succeeded, and run the `finally` close in every outcome. -/
def inspectRunEvents (useLog loadOk writeOk : Bool) : List DumpEvent :=
  (if useLog then [DumpEvent.openLogFile] else []) ++
  (if loadOk then [DumpEvent.loadDrawing true, DumpEvent.writeReport writeOk]
   else [DumpEvent.loadDrawing false]) ++
  (if useLog then [DumpEvent.closeLogFile] else [])

/-- The propagated outcome of one invocation: a load or write failure is
re-raised after the `finally` block, never caught or converted. -/
def inspectRunResult (loadOk writeOk : Bool) : Except String Unit :=
  if loadOk then
    (if writeOk then Except.ok () else Except.error "write failed")
  else Except.error "read_gds failed"

/-!
Refinement lemmas: each sequential emitter only appends to its accumulator,
so the emitted report equals the spec-order concatenation.
-/

theorem foldl_emit_append {α : Type} (f : List String → α → List String)
    (hf : ∀ acc x, f acc x = acc ++ f [] x) (l : List α) :
    ∀ acc : List String, l.foldl f acc = acc ++ (l.map (fun x => f [] x)).flatten := by
  induction l with
  | nil => intro acc; simp
  | cons x xs ih =>
      intro acc
      rw [List.foldl_cons, ih, hf acc x]
      simp [List.append_assoc]

theorem emitPolygon_append (acc : List String) (p : Polygon) :
    emitPolygon acc p = acc ++ emitPolygon [] p := by
  simp [emitPolygon]

theorem emitPath_append (acc : List String) (p : GdsPath) :
    emitPath acc p = acc ++ emitPath [] p := by
  obtain ⟨li, g⟩ := p
  cases li <;> cases g <;> simp [emitPath]

theorem emitLabel_append (acc : List String) (l : GdsLabel) :
    emitLabel acc l = acc ++ emitLabel [] l := by
  simp [emitLabel]

theorem emitReference_append (acc : List String) (r : Reference) :
    emitReference acc r = acc ++ emitReference [] r := by
  obtain ⟨c, o, rot, mag, xr, arr⟩ := r
  cases c <;> cases arr <;> simp [emitReference] <;> split_ifs <;> simp

theorem emitPolygon_spec (p : Polygon) : emitPolygon [] p = polygonLinesSpec p := by
  simp [emitPolygon, polygonLinesSpec]

theorem emitPath_spec (p : GdsPath) : emitPath [] p = pathLinesSpec p := by
  obtain ⟨li, g⟩ := p
  cases li <;> cases g <;> simp [emitPath, pathLinesSpec]

theorem emitLabel_spec (l : GdsLabel) : emitLabel [] l = labelLinesSpec l := by
  simp [emitLabel, labelLinesSpec]

theorem emitReference_spec (r : Reference) :
    emitReference [] r = referenceLinesSpec r := by
  obtain ⟨c, o, rot, mag, xr, arr⟩ := r
  cases c with
  | none =>
      cases arr <;>
        simp [emitReference, referenceLinesSpec, arrayLinesOf] <;> split_ifs <;> simp
  | some cn =>
      cases cn <;> cases arr <;>
        simp [emitReference, referenceLinesSpec, arrayLinesOf] <;> split_ifs <;> simp

theorem emitCell_eq_spec (acc : List String) (cell : Cell) :
    emitCell acc cell = acc ++ cellBlockSpec cell := by
  simp only [emitCell, cellBlockSpec]
  rw [foldl_emit_append emitPolygon emitPolygon_append,
      foldl_emit_append emitPath emitPath_append,
      foldl_emit_append emitLabel emitLabel_append,
      foldl_emit_append emitReference emitReference_append]
  simp only [emitPolygon_spec, emitPath_spec, emitLabel_spec, emitReference_spec]
  simp [List.append_assoc]

theorem emitCell_append (acc : List String) (cell : Cell) :
    emitCell acc cell = acc ++ emitCell [] cell := by
  rw [emitCell_eq_spec, emitCell_eq_spec]
  simp

theorem emitCell_spec (cell : Cell) : emitCell [] cell = cellBlockSpec cell := by
  rw [emitCell_eq_spec]
  simp

theorem inspect_gds_eq_spec (lib : Library) :
    inspect_gds lib = inspectReportSpec lib := by
  simp only [inspect_gds, inspectReportSpec]
  rw [foldl_emit_append emitCell emitCell_append]
  simp only [emitCell_spec]
  simp [List.append_assoc]

/-!
Claim theorems.
-/

/-- C1: for every run of consecutive placements onto a fresh cursor with
`maxCols = m` and no forced row breaks, the `k`-th (0-indexed) item is placed
at grid cell `row = k / m`, `col = k % m`, at coordinates
`x = originX + (k % m) * xSpacing` and `y = originY - (k / m) * ySpacing`;
in particular 5 placements with `maxCols = 4` land at cells
(0,0), (0,1), (0,2), (0,3), (1,0). -/
theorem C1_kth_placement_formula (cfg : GridConfig) (k : Nat) (hm : 0 < cfg.maxCols) :
    cursorAfter cfg k = { row := k / cfg.maxCols, col := k % cfg.maxCols } ∧
    (placementAt cfg k).itemX =
      cfg.originX + ((k % cfg.maxCols : Nat) : Int) * cfg.xSpacing ∧
    (placementAt cfg k).itemY =
      cfg.originY - ((k / cfg.maxCols : Nat) : Int) * cfg.ySpacing ∧
    (List.range 5).map (cursorAfter showcaseConfig) =
      [{ row := 0, col := 0 }, { row := 0, col := 1 }, { row := 0, col := 2 },
       { row := 0, col := 3 }, { row := 1, col := 0 }] := by
  have hcf := cursorAfter_closed_form cfg hm k
  refine ⟨hcf, ?_, ?_, by decide⟩
  · unfold placementAt
    rw [hcf]
    by_cases h : k % cfg.maxCols + 1 ≥ cfg.maxCols <;>
      simp [add_component_to_grid, h]
  · unfold placementAt
    rw [hcf]
    by_cases h : k % cfg.maxCols + 1 ≥ cfg.maxCols <;>
      simp [add_component_to_grid, h]

/-- Witness for C1 at the showcase configuration with `k = 6`. -/
theorem C1_kth_placement_formula_witness :
    cursorAfter showcaseConfig 6 = { row := 1, col := 2 } := by
  have h := (C1_kth_placement_formula showcaseConfig 6 (by decide)).1
  exact h.trans (by decide)

-- Single-operation invariant preservation.
theorem applyOp_inv (cfg : GridConfig) (cur : GridCursor) (op : GridOp)
    (hm : 0 < cfg.maxCols) (hc : cur.col < cfg.maxCols) :
    (applyOp cfg cur op).col < cfg.maxCols ∧ cur.row ≤ (applyOp cfg cur op).row := by
  cases op with
  | place =>
      by_cases h : cur.col + 1 ≥ cfg.maxCols <;>
        simp [applyOp, add_component_to_grid, h] <;> omega
  | newRow =>
      by_cases h : cur.col = 0 <;>
        simp [applyOp, forceNewRow, h] <;> omega

-- Sequence invariant preservation.
theorem runOps_inv (cfg : GridConfig) (hm : 0 < cfg.maxCols) :
    ∀ (ops : List GridOp) (cur : GridCursor), cur.col < cfg.maxCols →
      (runOps cfg cur ops).col < cfg.maxCols ∧ cur.row ≤ (runOps cfg cur ops).row := by
  intro ops
  induction ops with
  | nil => intro cur hc; exact ⟨hc, Nat.le_refl _⟩
  | cons op ops ih =>
      intro cur hc
      have h1 := applyOp_inv cfg cur op (by omega) hc
      have h2 := ih (applyOp cfg cur op) h1.1
      exact ⟨h2.1, Nat.le_trans h1.2 h2.2⟩

/-- C2: each cursor operation (a placement or a forced row break) preserves
`0 ≤ col < maxCols`, and across any sequence of operations within one layout
run the row counter never decreases. -/
theorem C2_cursor_invariant (cfg : GridConfig) (cur : GridCursor) (op : GridOp)
    (ops : List GridOp) (hm : 0 < cfg.maxCols) (hc : cur.col < cfg.maxCols) :
    0 ≤ (applyOp cfg cur op).col ∧ (applyOp cfg cur op).col < cfg.maxCols ∧
    cur.row ≤ (applyOp cfg cur op).row ∧
    0 ≤ (runOps cfg cur ops).col ∧ (runOps cfg cur ops).col < cfg.maxCols ∧
    cur.row ≤ (runOps cfg cur ops).row := by
  have h1 := applyOp_inv cfg cur op hm hc
  have h2 := runOps_inv cfg hm ops cur hc
  exact ⟨Nat.zero_le _, h1.1, h1.2, Nat.zero_le _, h2.1, h2.2⟩

/-- Witness for C2: a concrete operation sequence on the showcase cursor. -/
theorem C2_cursor_invariant_witness :
    (runOps showcaseConfig { row := 0, col := 0 }
        [GridOp.place, GridOp.place, GridOp.newRow, GridOp.place]).col <
      showcaseConfig.maxCols := by
  have h := C2_cursor_invariant showcaseConfig { row := 0, col := 0 } GridOp.place
    [GridOp.place, GridOp.place, GridOp.newRow, GridOp.place] (by decide) (by decide)
  exact h.2.2.2.2.1

/-- C3: `forceNewRow` is a no-op exactly when `col = 0`; otherwise it
increments `row` by one and resets `col` to 0; and it is idempotent. -/
theorem C3_forceNewRow_spec (cur : GridCursor) :
    (forceNewRow cur = cur ↔ cur.col = 0) ∧
    (cur.col ≠ 0 → forceNewRow cur = { row := cur.row + 1, col := 0 }) ∧
    forceNewRow (forceNewRow cur) = forceNewRow cur := by
  obtain ⟨r, c⟩ := cur
  by_cases h : c = 0 <;>
    simp [forceNewRow, h, GridCursor.mk.injEq]

/-- Witness for C3 at the concrete cursor (2, 3). -/
theorem C3_forceNewRow_spec_witness :
    forceNewRow { row := 2, col := 3 } = { row := 3, col := 0 } :=
  (C3_forceNewRow_spec { row := 2, col := 3 }).2.1 (by decide)

/-- C4: for every placement the caption is moved to exactly
`(itemX - 50, itemY - 40)` where `(itemX, itemY)` is the position computed for
the paired item in the same call, both for grid placements and for the
separately placed spiral. -/
theorem C4_caption_offset (cfg : GridConfig) (cur : GridCursor) :
    (add_component_to_grid cfg cur).1.captionX =
      (add_component_to_grid cfg cur).1.itemX - 50 ∧
    (add_component_to_grid cfg cur).1.captionY =
      (add_component_to_grid cfg cur).1.itemY - 40 ∧
    (placeSpiral cfg cur).captionX = (placeSpiral cfg cur).itemX - 50 ∧
    (placeSpiral cfg cur).captionY = (placeSpiral cfg cur).itemY - 40 := by
  by_cases h : cur.col + 1 ≥ cfg.maxCols <;>
    simp [add_component_to_grid, placeSpiral, h]

/-- C5: under the cursor invariant, each placement advances the cursor by
exactly one grid cell — to `(row, col + 1)` in the same row, or wrapping to
`(row + 1, 0)` when `col = maxCols - 1` — so consecutive placements have
strictly increasing `(row, col)` in lexicographic order. -/
theorem C5_placeNext_advances_one_cell (cfg : GridConfig) (cur : GridCursor)
    (hc : cur.col < cfg.maxCols) :
    (cur.row < ((add_component_to_grid cfg cur).2).row ∨
      (cur.row = ((add_component_to_grid cfg cur).2).row ∧
       cur.col < ((add_component_to_grid cfg cur).2).col)) ∧
    (cur.col = cfg.maxCols - 1 →
      (add_component_to_grid cfg cur).2 = { row := cur.row + 1, col := 0 }) ∧
    (cur.col ≠ cfg.maxCols - 1 →
      (add_component_to_grid cfg cur).2 = { row := cur.row, col := cur.col + 1 }) := by
  by_cases h : cur.col + 1 ≥ cfg.maxCols
  · refine ⟨Or.inl ?_, ?_, ?_⟩ <;>
      simp [add_component_to_grid, h, GridCursor.mk.injEq] <;> omega
  · refine ⟨Or.inr ?_, ?_, ?_⟩ <;>
      simp [add_component_to_grid, h, GridCursor.mk.injEq] <;> omega

/-- Witness for C5: placing at column 3 of 4 wraps to the next row. -/
theorem C5_placeNext_advances_one_cell_witness :
    (add_component_to_grid showcaseConfig { row := 0, col := 3 }).2 =
      { row := 1, col := 0 } :=
  (C5_placeNext_advances_one_cell showcaseConfig { row := 0, col := 3 }
    (by decide)).2.1 (by decide)

/-- A reference carrying 3x2 array fields. -/
def refArray32 : Reference :=
  { cellAttr := some (some "SUB"), origin := (0, 0), rotation := 0,
    magnification := 1, xReflection := false,
    arrayAttrs := some { columns := 3, rows := 2, spacing := (10, 20) } }

/-- The same reference with `columns = 1`. -/
def refArray1 : Reference :=
  { refArray32 with arrayAttrs := some { columns := 1, rows := 1, spacing := (10, 20) } }

/-- The same reference with the array fields absent. -/
def refNoArrayAttrs : Reference :=
  { refArray32 with arrayAttrs := none }

/-- C6: the per-reference array lines (column/row counts and spacing) are
emitted exactly when the reference has array fields with `columns > 1`;
a reference with `columns = 3, rows = 2` emits both array lines, while one
with `columns = 1` or with absent array fields emits no array line. -/
theorem C6_array_line_iff_columns (r : Reference) (a : RefArray) :
    (r.arrayAttrs = some a → 1 < a.columns →
      referenceLines r = referenceLines { r with arrayAttrs := none } ++
        ["      Array: " ++ toString a.columns ++ " columns x " ++
           toString a.rows ++ " rows",
         "      Spacing: " ++ toString a.spacing]) ∧
    (r.arrayAttrs = some a → ¬ 1 < a.columns →
      referenceLines r = referenceLines { r with arrayAttrs := none }) ∧
    (r.arrayAttrs = none →
      referenceLines r = referenceLines { r with arrayAttrs := none }) ∧
    referenceLines refArray32 =
      ["    Reference to cell: SUB", "      Origin: (0, 0)",
       "      Rotation: 0 degrees", "      Magnification: 1",
       "      X-reflection: false", "      Array: 3 columns x 2 rows",
       "      Spacing: (10, 20)"] ∧
    referenceLines refArray1 =
      ["    Reference to cell: SUB", "      Origin: (0, 0)",
       "      Rotation: 0 degrees", "      Magnification: 1",
       "      X-reflection: false"] ∧
    referenceLines refNoArrayAttrs =
      ["    Reference to cell: SUB", "      Origin: (0, 0)",
       "      Rotation: 0 degrees", "      Magnification: 1",
       "      X-reflection: false"] := by
  obtain ⟨c, o, rot, mag, xr, arr⟩ := r
  refine ⟨?_, ?_, ?_, by rfl, by rfl, by rfl⟩
  · intro ha h12
    simp only at ha
    subst ha
    rw [referenceLines, emitReference_spec, referenceLines, emitReference_spec]
    simp [referenceLinesSpec, arrayLinesOf, if_pos h12]
  · intro ha h12
    simp only at ha
    subst ha
    rw [referenceLines, emitReference_spec, referenceLines, emitReference_spec]
    simp [referenceLinesSpec, arrayLinesOf, if_neg h12]
  · intro ha
    simp only at ha
    subst ha
    rfl

/-- Witness for C6 at the 3x2 array reference. -/
theorem C6_array_line_iff_columns_witness :
    referenceLines refArray32 = referenceLines { refArray32 with arrayAttrs := none } ++
      ["      Array: " ++ toString (3 : Nat) ++ " columns x " ++
         toString (2 : Nat) ++ " rows",
       "      Spacing: " ++ toString ((10 : Int), (20 : Int))] :=
  (C6_array_line_iff_columns refArray32
      { columns := 3, rows := 2, spacing := (10, 20) }).1 rfl (by decide)

/-- C7: with a log path supplied, the opened log file is closed when the dump
ends, in every outcome (successful run, load failure, write failure), and the
failure propagates uncaught; with stdout as sink, stdout is never closed. -/
theorem C7_log_file_always_closed (loadOk writeOk : Bool) :
    DumpEvent.closeLogFile ∈ inspectRunEvents true loadOk writeOk ∧
    (inspectRunEvents true loadOk writeOk).getLast? = some DumpEvent.closeLogFile ∧
    DumpEvent.closeLogFile ∉ inspectRunEvents false loadOk writeOk ∧
    (inspectRunResult loadOk writeOk = Except.ok () ↔ loadOk = true ∧ writeOk = true) := by
  cases loadOk <;> cases writeOk <;>
    exact ⟨by decide, by decide, by decide, by simp [inspectRunResult]⟩

/-- C8: the dump is deterministic and emits the report in the documented
fixed order — header (library name, cell count, cell names), then each cell
in native order with its counts followed by per-polygon, per-path, per-label
and per-reference lines; two runs over the same drawing agree. -/
theorem C8_report_deterministic_fixed_order (lib : Library) :
    inspect_gds lib = inspectReportSpec lib ∧
    ∀ lib2 : Library, lib2 = lib → inspect_gds lib2 = inspect_gds lib :=
  ⟨inspect_gds_eq_spec lib, fun _ h => by rw [h]⟩

/-- A one-cell sample library for evaluating the dump concretely. -/
def sampleLibrary : Library :=
  { name := "LIB",
    cells := [{ name := "TOP",
                polygons := [{ layer := 1, datatype := 0,
                               points := [(0, 0), (10, 0), (10, 10), (0, 10)] }],
                paths := [{ layersInfo := PathLayers.single 2 0,
                            geom := PathGeom.pointsGeom [(0, 0), (5, 5)] }],
                labels := [{ layer := 1, texttype := 0, text := "lbl",
                             origin := (1, 1) }],
                references := [{ cellAttr := some (some "SUB"), origin := (0, 0),
                                 rotation := 0, magnification := 1,
                                 xReflection := false, arrayAttrs := none }] }] }

/-- Witness for C8 at the sample library. -/
theorem C8_report_deterministic_fixed_order_witness :
    inspect_gds sampleLibrary = inspectReportSpec sampleLibrary ∧
    inspect_gds sampleLibrary = inspect_gds sampleLibrary :=
  ⟨(C8_report_deterministic_fixed_order sampleLibrary).1,
   (C8_report_deterministic_fixed_order sampleLibrary).2 sampleLibrary rfl⟩

/-- C9: with a log path supplied the log file is opened (created or
truncated) before the load is attempted, so when loading fails the file
exists, holds no report content, and has still been closed. -/
theorem C9_log_opened_before_load (loadOk writeOk : Bool) :
    (inspectRunEvents true loadOk writeOk).head? = some DumpEvent.openLogFile ∧
    DumpEvent.writeReport true ∉ inspectRunEvents true false writeOk ∧
    DumpEvent.writeReport false ∉ inspectRunEvents true false writeOk ∧
    DumpEvent.closeLogFile ∈ inspectRunEvents true false writeOk ∧
    (inspectRunEvents true false writeOk).getLast? = some DumpEvent.closeLogFile := by
  cases loadOk <;> cases writeOk <;> decide

/-- C10: a reference whose target-cell field is null prints the literal
target name `Unknown`; one without a `cell` attribute omits the target line;
in both cases the origin, rotation, magnification and reflection lines are
still printed and the dump does not fail. -/
theorem C10_null_or_absent_cell (r : Reference) :
    (r.cellAttr = some none →
      referenceLines r =
        "    Reference to cell: Unknown" ::
        ("      Origin: " ++ toString r.origin) ::
        ("      Rotation: " ++ toString r.rotation ++ " degrees") ::
        ("      Magnification: " ++ toString r.magnification) ::
        ("      X-reflection: " ++ toString r.xReflection) :: arrayLinesOf r) ∧
    (r.cellAttr = none →
      referenceLines r =
        ("      Origin: " ++ toString r.origin) ::
        ("      Rotation: " ++ toString r.rotation ++ " degrees") ::
        ("      Magnification: " ++ toString r.magnification) ::
        ("      X-reflection: " ++ toString r.xReflection) :: arrayLinesOf r) := by
  obtain ⟨c, o, rot, mag, xr, arr⟩ := r
  constructor <;> intro hc <;> simp only at hc <;> subst hc <;>
    rw [referenceLines, emitReference_spec] <;>
    simp [referenceLinesSpec, arrayLinesOf]

/-- A reference with a present but null `cell` attribute. -/
def refNullCell : Reference :=
  { cellAttr := some none, origin := (5, 6), rotation := 90, magnification := 2,
    xReflection := true, arrayAttrs := none }

/-- Witness for C10 at a reference with a null target cell. -/
theorem C10_null_or_absent_cell_witness :
    referenceLines refNullCell =
      ["    Reference to cell: Unknown", "      Origin: (5, 6)",
       "      Rotation: 90 degrees", "      Magnification: 2",
       "      X-reflection: true"] :=
  ((C10_null_or_absent_cell refNullCell).1 rfl).trans (by rfl)
